import Mathlib

set_option exponentiation.threshold 1200
set_option maxRecDepth 4000

/-!
Verification of the client-side orchestration layer of the SSMIF portfolio
watch-list app (frontend/pages/index.js and frontend/pages/portfolio.js).

The JavaScript source is shallowly embedded: each React event handler becomes a
pure Lean function from the current component state (plus an oracle describing
the outcome of the remote HTTP calls it performs) to the new state together
with the list of HTTP requests it issued.  JavaScript numbers are modelled as
exact rationals extended with NaN and the two infinities; IEEE-754 rounding is
modelled only at the overflow and underflow boundaries, which are the only
places it can change the sign predicates used by the code under study.
-/

/-- A JavaScript number: NaN, the infinities, or a finite value carried as an
exact rational.  `Number(string)` parsing produces the exact mathematical value
of the literal; `roundJs` applies the two IEEE-754 double boundaries that can
change the predicates used in the source (overflow to infinity, and positive
underflow to zero, handled inside `jsGtZero`). -/
inductive JsNum where
  | nan
  | posInf
  | negInf
  | finite (q : ℚ)
deriving DecidableEq

/-- Exact values of magnitude at least 2^1024 - 2^970 round to an infinity
under round-to-nearest-even (the halfway point above the largest finite
double rounds away). -/
def overflowThreshold : ℚ := mkRat ((2 ^ 1024 - 2 ^ 970 : Nat) : Int) 1

/-- A positive exact value rounds to a positive double iff it exceeds
2^(-1075): values in (0, 2^(-1075)] round to +0 under round-to-nearest-even. -/
def underflowThreshold : ℚ := mkRat 1 (2 ^ 1075)

/-- Apply the overflow boundary of IEEE-754 doubles to an exact parsed value. -/
def roundJs (q : ℚ) : JsNum :=
  if overflowThreshold ≤ q then .posInf
  else if q ≤ -overflowThreshold then .negInf
  else .finite q

/-- The JavaScript test `isNaN(num)`. -/
def jsIsNaN : JsNum → Bool
  | .nan => true
  | _ => false

/-- The JavaScript comparison `num > 0` on a double obtained from an exact
value, taking the positive-underflow boundary into account. -/
def jsGtZero : JsNum → Bool
  | .nan => false
  | .posInf => true
  | .negInf => false
  | .finite q => decide (underflowThreshold < q)

/-- Unary minus on JavaScript numbers. -/
def jsNeg : JsNum → JsNum
  | .nan => .nan
  | .posInf => .negInf
  | .negInf => .posInf
  | .finite q => .finite (-q)

/-- The white-space code points trimmed by `Number(string)` (ECMA-262
StrWhiteSpaceChar: TAB LF VT FF CR SP NBSP BOM and the Unicode space
separators). -/
def jsWhitespace (c : Char) : Bool :=
  let n := c.toNat
  n == 0x9 || n == 0xA || n == 0xB || n == 0xC || n == 0xD || n == 0x20 ||
  n == 0xA0 || n == 0x1680 || (decide (0x2000 ≤ n) && decide (n ≤ 0x200A)) ||
  n == 0x2028 || n == 0x2029 || n == 0x202F || n == 0x205F || n == 0x3000 ||
  n == 0xFEFF

/-- Trim JavaScript white space from both ends of a character list. -/
def trimJs (cs : List Char) : List Char :=
  ((cs.dropWhile jsWhitespace).reverse.dropWhile jsWhitespace).reverse

/-- Value of a list of decimal digits. -/
def decDigitsToNat (ds : List Char) : Nat :=
  ds.foldl (fun a c => 10 * a + (c.toNat - 48)) 0

/-- Hexadecimal digit value. -/
def hexVal (c : Char) : Option Nat :=
  if c.isDigit then some (c.toNat - 48)
  else if 'a' ≤ c ∧ c ≤ 'f' then some (c.toNat - 87)
  else if 'A' ≤ c ∧ c ≤ 'F' then some (c.toNat - 55)
  else none

/-- Octal digit value. -/
def octVal (c : Char) : Option Nat :=
  if '0' ≤ c ∧ c ≤ '7' then some (c.toNat - 48) else none

/-- Binary digit value. -/
def binVal (c : Char) : Option Nat :=
  if c == '0' || c == '1' then some (c.toNat - 48) else none

/-- Value of a digit list in a given radix (digits already checked valid). -/
def radixDigitsToNat (base : Nat) (val : Char → Option Nat) (ds : List Char) : Nat :=
  ds.foldl (fun a c => base * a + (val c).getD 0) 0

/-- Parse a non-empty all-valid digit string in a given radix. -/
def parseRadix (base : Nat) (val : Char → Option Nat) (ds : List Char) : Option ℚ :=
  if ds.isEmpty then none
  else if ds.all (fun c => (val c).isSome) then
    some (mkRat (radixDigitsToNat base val ds) 1)
  else none

/-- Parse an optional ExponentPart occupying the whole remaining input:
empty means exponent 0; otherwise `e`/`E`, an optional sign, and at least
one decimal digit. -/
def parseExpPart (cs : List Char) : Option Int :=
  match cs with
  | [] => some 0
  | c :: rest =>
    if c == 'e' || c == 'E' then
      match rest with
      | '+' :: ds =>
        if ds.isEmpty then none
        else if ds.all Char.isDigit then some (Int.ofNat (decDigitsToNat ds)) else none
      | '-' :: ds =>
        if ds.isEmpty then none
        else if ds.all Char.isDigit then some (-(Int.ofNat (decDigitsToNat ds))) else none
      | ds =>
        if ds.isEmpty then none
        else if ds.all Char.isDigit then some (Int.ofNat (decDigitsToNat ds)) else none
    else none

/-- Result of parsing a StrUnsignedDecimalLiteral: the literal `Infinity` or a
finite exact value. -/
inductive UnsignedParse where
  | inf
  | val (q : ℚ)

/-- Exact value of integer digits, fraction digits and a decimal exponent:
`(ip + fp / 10 ^ fpLen) * 10 ^ e`, built as a single quotient of integers so
that it evaluates by kernel reduction. -/
def decValue (ip fp : List Char) (e : Int) : ℚ :=
  let mant : Nat := decDigitsToNat ip * 10 ^ fp.length + decDigitsToNat fp
  if 0 ≤ e then mkRat (mant * 10 ^ e.toNat) (10 ^ fp.length)
  else mkRat mant (10 ^ fp.length * 10 ^ (-e).toNat)

/-- Parse a StrUnsignedDecimalLiteral consuming the whole input:
`Infinity`, `DecimalDigits . DecimalDigits? ExponentPart?`,
`. DecimalDigits ExponentPart?`, or `DecimalDigits ExponentPart?`. -/
def parseUnsignedDec (cs : List Char) : Option UnsignedParse :=
  if cs = "Infinity".data then some .inf
  else
    let ip := cs.takeWhile Char.isDigit
    let rest := cs.dropWhile Char.isDigit
    match rest with
    | '.' :: rest2 =>
      let fp := rest2.takeWhile Char.isDigit
      let rest3 := rest2.dropWhile Char.isDigit
      if ip.isEmpty && fp.isEmpty then none
      else (parseExpPart rest3).map (fun e => .val (decValue ip fp e))
    | [] => if ip.isEmpty then none else some (.val (decValue ip [] 0))
    | _ =>
      if ip.isEmpty then none
      else (parseExpPart rest).map (fun e => .val (decValue ip [] e))

/-- Convert an unsigned parse to a JavaScript number (applying overflow). -/
def unsignedToJs : UnsignedParse → JsNum
  | .inf => .posInf
  | .val q => roundJs q

/-- Parse a StrDecimalLiteral: an optional sign then an unsigned literal. -/
def parseSigned (cs : List Char) : Option JsNum :=
  match cs with
  | '+' :: rest => (parseUnsignedDec rest).map unsignedToJs
  | '-' :: rest => (parseUnsignedDec rest).map (fun u => jsNeg (unsignedToJs u))
  | _ => (parseUnsignedDec cs).map unsignedToJs

/-- Parse a StrNumericLiteral: a hex/octal/binary literal (no sign allowed) or
a signed decimal literal. -/
def parseStrNumericLiteral (cs : List Char) : Option JsNum :=
  match cs with
  | '0' :: x :: ds =>
    if x == 'x' || x == 'X' then (parseRadix 16 hexVal ds).map roundJs
    else if x == 'o' || x == 'O' then (parseRadix 8 octVal ds).map roundJs
    else if x == 'b' || x == 'B' then (parseRadix 2 binVal ds).map roundJs
    else parseSigned cs
  | _ => parseSigned cs

/-- The JavaScript conversion `Number(s)` for a string argument: trim white
space; the empty remainder is 0; otherwise the whole remainder must be a
StrNumericLiteral, and any parse failure gives NaN. -/
def jsStringToNumber (s : String) : JsNum :=
  let cs := trimJs s.data
  if cs.isEmpty then .finite 0
  else match parseStrNumericLiteral cs with
    | some n => n
    | none => .nan

/-- index.js lines 239-242: `validateStockTicker(ticker)` tests the regular
expression `^[A-Z]\x7b1,5\x7d$` — one to five uppercase ASCII letters. -/
def validateStockTicker (s : String) : Bool :=
  decide (1 ≤ s.data.length) && decide (s.data.length ≤ 5) &&
    s.data.all (fun c => decide ('A' ≤ c) && decide (c ≤ 'Z'))

/-- index.js lines 244-247: `validatePositiveNumber(number)` computes
`Number(number)` and returns `!isNaN(num) && num > 0`. -/
def validatePositiveNumber (s : String) : Bool :=
  let num := jsStringToNumber s
  !(jsIsNaN num) && jsGtZero num

/-- Modelled from the spec (section 4.1), for comparison with the source's
`validatePositiveNumber`: true iff the string parses as a FINITE number whose
value is strictly greater than zero. -/
def spec_isPositiveNumber (s : String) : Bool :=
  match jsStringToNumber s with
  | .finite q => decide (underflowThreshold < q)
  | _ => false

/-!
Timed model of one notification channel.  Every `setX(msg)` in the source is
immediately followed by `setTimeout(() => setX(""), 2000)` with NO
`clearTimeout`, so each show both displays its message and arms an
uncancellable clear that unconditionally empties the channel 2000ms later.
A channel history is the chronological list of `(time, message)` show calls
(times non-decreasing, as produced by appending events as they happen).
-/

/-- The last show call at or before time `t` (later list entries win ties). -/
def lastShowAt (events : List (Nat × String)) (t : Nat) : Option (Nat × String) :=
  events.foldl (fun acc e => if e.1 ≤ t then some e else acc) none

/-- The message visible at time `t` under the SOURCE's semantics: the value of
the channel's state variable after all writes at times ≤ t.  The writes are
each show `(u, m)` (writing `m` at `u`) and, 2000ms after every show, an
unconditional write of "".  A clear firing at the same instant as a show is
applied before the show. -/
def visibleAt (events : List (Nat × String)) (t : Nat) : String :=
  match lastShowAt events t with
  | none => ""
  | some (u, m) =>
    if events.any (fun e => decide (e.1 + 2000 ≤ t) && decide (u < e.1 + 2000)) then ""
    else m

/-- Modelled from the spec (section 4.3), for comparison with `visibleAt`:
`show` (re)starts a single 2000ms countdown and cancels the previous pending
expiry, so the channel clears exactly 2000ms after the LAST show. -/
def spec_visibleAt (events : List (Nat × String)) (t : Nat) : String :=
  match lastShowAt events t with
  | none => ""
  | some (u, m) => if decide (t < u + 2000) then m else ""

/-- The pending (not yet fired) clear deadlines of a channel at time `t`. -/
def pendingClears (events : List (Nat × String)) (t : Nat) : List Nat :=
  (events.map (fun e => e.1 + 2000)).filter (fun d => decide (t < d))

/-!
Model of the allocation page, portfolio.js.  State fields mirror the
`useState` hooks (lines 7-10); the error channel is kept as its show history
so the timed semantics above applies.  Each handler takes the current time and
an oracle describing the outcome of its remote call, and returns the new state
together with the list of HTTP requests it issued.
-/

/-- A watch-list entry `{id, ticker}` as served by GET /items. -/
structure Item where
  id : Nat
  ticker : String
deriving DecidableEq

/-- The response shape of POST /calculate_portfolio (spec section 6); the
client stores it wholesale, so its fields are opaque payload here. -/
structure AllocationResult where
  weights : List (String × ℚ)
  sharesToPurchase : List (String × ℚ)
  expectedAnnualReturn : ℚ
  annualVolatility : ℚ
  sharpeRatio : ℚ
  remainingBudget : ℚ
deriving DecidableEq

/-- The body of the POST /calculate_portfolio request built at
portfolio.js lines 69-72. -/
structure ComputeRequest where
  budget : JsNum
  stocks : List String
deriving DecidableEq

/-- The state of the Portfolio component (portfolio.js lines 7-10):
`portfolioValue` (null modelled as `none`), `items`, `allocationResults`,
and the single error channel's show history. -/
structure PortfolioState where
  portfolioValue : Option JsNum
  items : List Item
  allocationResults : Option AllocationResult
  errorShows : List (Nat × String)
deriving DecidableEq

/-- Outcome of the POST /calculate_portfolio call: success with a parsed
body; a non-success status whose JSON body has an `error` field (`none` when
the field is absent or null); or a thrown transport/parse error with the
exception's message. -/
inductive ComputeOutcome where
  | success (r : AllocationResult)
  | httpError (errorField : Option String)
  | transportError (msg : String)
deriving DecidableEq

/-- JavaScript `x || d` for a possibly-absent string `x`: the empty string is
falsy, so it also falls through to the default. -/
def jsOrString : Option String → String → String
  | some s, d => if s.isEmpty then d else s
  | none, d => d

/-- `setErrorMessage(m)` followed by `setTimeout(() => setErrorMessage(""), 2000)`
(the pattern at portfolio.js lines 56-59, 84-87): append a show event. -/
def showError (s : PortfolioState) (now : Nat) (m : String) : PortfolioState :=
  { s with errorShows := s.errorShows ++ [(now, m)] }

/-- portfolio.js lines 54-89, `handleCalculate`: if `portfolioValue === null`
or `items.length === 0`, show the guard message and return without any
network call; otherwise POST the budget and tickers, storing the parsed body
wholesale on success, and on failure show `errorData.error ||
"Failed to calculate portfolio"` (non-ok status) or the thrown error's
message (transport failure). -/
def handleCalculate (s : PortfolioState) (now : Nat) (outcome : ComputeOutcome) :
    PortfolioState × List ComputeRequest :=
  match s.portfolioValue, s.items with
  | none, _ => (showError s now "Ensure portfolio value and stock tickers are set.", [])
  | some _, [] => (showError s now "Ensure portfolio value and stock tickers are set.", [])
  | some v, i :: is =>
    let req : ComputeRequest := ⟨v, (i :: is).map Item.ticker⟩
    match outcome with
    | .success r => ({ s with allocationResults := some r }, [req])
    | .httpError e => (showError s now (jsOrString e "Failed to calculate portfolio"), [req])
    | .transportError m => (showError s now m, [req])

/-- Outcome of GET /portfolio: success with the (nullable) `portfolio_value`
field, or any failure (non-ok status or thrown error). -/
inductive BudgetFetchOutcome where
  | ok (portfolio_value : Option JsNum)
  | failure
deriving DecidableEq

/-- portfolio.js lines 18-33, `fetchPortfolioValue`: on success store
`data.portfolio_value` as is (no validation); on any failure show
"Error fetching portfolio value". -/
def fetchPortfolioValue (s : PortfolioState) (now : Nat) (o : BudgetFetchOutcome) :
    PortfolioState :=
  match o with
  | .ok v => { s with portfolioValue := v }
  | .failure => showError s now "Error fetching portfolio value"

/-!
Model of the configuration page, index.js.  State fields mirror the
`useState` hooks (lines 250-255); the two error channels `tickerError` and
`portfolioError` are kept as separate show histories.
-/

/-- An HTTP request issued by the configuration page. -/
inductive HomeRequest where
  | listItems
  | addItem (ticker : String)
  | deleteItem (id : Nat)
  | getPortfolio
  | setPortfolio (value : JsNum)
deriving DecidableEq

/-- The state of the Home component (index.js lines 250-255). -/
structure HomeState where
  items : List Item
  tickerInput : String
  portfolioValue : String
  displayedPortfolioValue : Option JsNum
  tickerShows : List (Nat × String)
  portfolioShows : List (Nat × String)
deriving DecidableEq

/-- Outcome of GET /items: a parsed item list, or any failure. -/
inductive ListOutcome where
  | ok (items : List Item)
  | failure
deriving DecidableEq

/-- index.js lines 263-278, `fetchItems`: on success replace `items` with the
response; on any failure show "Error fetching items" on the ticker channel. -/
def fetchItems (s : HomeState) (now : Nat) (o : ListOutcome) :
    HomeState × List HomeRequest :=
  match o with
  | .ok l => ({ s with items := l }, [.listItems])
  | .failure =>
    ({ s with tickerShows := s.tickerShows ++ [(now, "Error fetching items")] }, [.listItems])

/-- index.js lines 281-296, `fetchPortfolioValue` of the Home page: on success
store `data.portfolio_value`; on any failure show "Error fetching portfolio
value" on the portfolio channel. -/
def fetchPortfolioValueHome (s : HomeState) (now : Nat) (o : BudgetFetchOutcome) :
    HomeState × List HomeRequest :=
  match o with
  | .ok v => ({ s with displayedPortfolioValue := v }, [.getPortfolio])
  | .failure =>
    ({ s with portfolioShows := s.portfolioShows ++ [(now, "Error fetching portfolio value")] },
      [.getPortfolio])

/-- Outcome of POST /items: created (the code then clears the input and
re-fetches the list, whose own outcome is nested here); a non-ok status; or a
thrown error. -/
inductive AddOutcome where
  | ok (list : ListOutcome)
  | httpError
  | transportError
deriving DecidableEq

/-- index.js lines 299-340, `handleTickerSubmit`: validate `tickerInput` with
`validateStockTicker`; on failure show the fixed message on the ticker channel
and return with no network call.  Otherwise POST the ticker; on ok clear the
input and re-run `fetchItems`; on non-ok show "Failed to add item"; on a
thrown error show "Error adding item". -/
def handleTickerSubmit (s : HomeState) (now : Nat) (o : AddOutcome) :
    HomeState × List HomeRequest :=
  if !(validateStockTicker s.tickerInput) then
    ({ s with tickerShows := s.tickerShows ++
        [(now, "Must put in a valid stock ticker (1-5 uppercase letters)")] }, [])
  else
    match o with
    | .ok lo =>
      ((fetchItems { s with tickerInput := "" } now lo).1,
        .addItem s.tickerInput :: (fetchItems { s with tickerInput := "" } now lo).2)
    | .httpError =>
      ({ s with tickerShows := s.tickerShows ++ [(now, "Failed to add item")] },
        [.addItem s.tickerInput])
    | .transportError =>
      ({ s with tickerShows := s.tickerShows ++ [(now, "Error adding item")] },
        [.addItem s.tickerInput])

/-- Outcome of POST /portfolio. -/
inductive SetBudgetOutcome where
  | ok
  | httpError
  | transportError
deriving DecidableEq

/-- index.js lines 343-382, `handlePortfolioSubmit`: validate the raw input
with `validatePositiveNumber`; on failure show "Portfolio value must be a
positive number" on the portfolio channel and return with no network call.
Otherwise POST `{value: Number(portfolioValue)}`; on ok set
`displayedPortfolioValue` to `Number(portfolioValue)` and clear the input (no
re-fetch); on non-ok show "Failed to set portfolio value"; on a thrown error
show "Error setting portfolio value". -/
def handlePortfolioSubmit (s : HomeState) (now : Nat) (o : SetBudgetOutcome) :
    HomeState × List HomeRequest :=
  if !(validatePositiveNumber s.portfolioValue) then
    ({ s with portfolioShows := s.portfolioShows ++
        [(now, "Portfolio value must be a positive number")] }, [])
  else
    let v := jsStringToNumber s.portfolioValue
    match o with
    | .ok =>
      ({ s with displayedPortfolioValue := some v, portfolioValue := "" },
        [.setPortfolio v])
    | .httpError =>
      ({ s with portfolioShows := s.portfolioShows ++ [(now, "Failed to set portfolio value")] },
        [.setPortfolio v])
    | .transportError =>
      ({ s with portfolioShows := s.portfolioShows ++ [(now, "Error setting portfolio value")] },
        [.setPortfolio v])

/-- Outcome of DELETE /items/{id}: deleted (the code then re-runs
`fetchItems`, whose own outcome is nested here); a non-ok status; or a thrown
error. -/
inductive DeleteOutcome where
  | ok (list : ListOutcome)
  | httpError
  | transportError
deriving DecidableEq

/-- index.js lines 385-408, `handleDelete`: DELETE the item; on ok re-run
`fetchItems`; on non-ok show "Failed to delete item"; on a thrown error show
"Error deleting item".  Note the failure branches do NOT re-fetch the list. -/
def handleDelete (s : HomeState) (id : Nat) (now : Nat) (o : DeleteOutcome) :
    HomeState × List HomeRequest :=
  match o with
  | .ok lo =>
    ((fetchItems s now lo).1, .deleteItem id :: (fetchItems s now lo).2)
  | .httpError =>
    ({ s with tickerShows := s.tickerShows ++ [(now, "Failed to delete item")] },
      [.deleteItem id])
  | .transportError =>
    ({ s with tickerShows := s.tickerShows ++ [(now, "Error deleting item")] },
      [.deleteItem id])

/-- The concrete successful compute response of spec section 8 with exact
rational payloads. -/
def exampleAllocation : AllocationResult :=
  ⟨[("AAPL", mkRat 6 10), ("MSFT", mkRat 4 10)],
    [("AAPL", mkRat 10 1), ("MSFT", mkRat 5 1)],
    mkRat 12 100, mkRat 2 10, mkRat 6 10, mkRat 12345 100⟩

example : validatePositiveNumber "1" = true := by decide
example : validatePositiveNumber "0.01" = true := by decide
example : validatePositiveNumber "1000000" = true := by decide
example : validatePositiveNumber "0" = false := by decide
example : validatePositiveNumber "-5" = false := by decide
example : validatePositiveNumber "" = false := by decide
example : validatePositiveNumber "abc" = false := by decide
example : validatePositiveNumber "NaN" = false := by decide
example : validateStockTicker "AAPL" = true := by decide
example : validateStockTicker "A" = true := by decide
example : validateStockTicker "ABCDE" = true := by decide
example : validateStockTicker "" = false := by decide
example : validateStockTicker "abcd" = false := by decide
example : validateStockTicker "ABCDEF" = false := by decide
example : validateStockTicker "AB1" = false := by decide
example : validateStockTicker "AB-C" = false := by decide

/-- Claim C1, the code evaluated at the failing input: arming M1 at t=0 and
M2 at t=500 on the same channel.  M1 is indeed never visible after t=500, but
the timeout armed for M1 is never cancelled and fires at t=2000,
unconditionally clearing the channel, so M2 disappears at t=2000 rather than
at t=2500 as the claim requires; the spec's intended cancelling semantics
(`spec_visibleAt`) would keep M2 visible through t=2499. -/
theorem stale_timer_clears_new_message :
    visibleAt [(0, "M1"), (500, "M2")] 600 = "M2" ∧
    visibleAt [(0, "M1"), (500, "M2")] 1999 = "M2" ∧
    visibleAt [(0, "M1"), (500, "M2")] 2000 = "" ∧
    visibleAt [(0, "M1"), (500, "M2")] 2400 = "" ∧
    spec_visibleAt [(0, "M1"), (500, "M2")] 2400 = "M2" ∧
    spec_visibleAt [(0, "M1"), (500, "M2")] 2500 = "" := by
  decide

/-- Claim C2, counterexample: when the DELETE call fails with a non-ok
status, `handleDelete` issues no GET /items request at all — the local items
list is left as it was, so the claimed unconditional resynchronization does
not happen. -/
theorem delete_failure_no_refresh_cex :
    (handleDelete ⟨[⟨1, "AAPL"⟩], "", "", none, [], []⟩ 1 0 .httpError).2 =
      [.deleteItem 1] ∧
    HomeRequest.listItems ∉ (handleDelete ⟨[⟨1, "AAPL"⟩], "", "", none, [], []⟩ 1 0 .httpError).2 ∧
    (handleDelete ⟨[⟨1, "AAPL"⟩], "", "", none, [], []⟩ 1 0 .httpError).1.items =
      [⟨1, "AAPL"⟩] := by
  decide

/-- Claim C2 as amended: `deleteTicker(id)` re-runs `listItems` only after a
SUCCESSFUL delete (then the refreshed list replaces `items`, or a
fetch-failure notification is shown); after a failed delete it shows a
ticker-channel notification ("Failed to delete item" on a non-ok status,
"Error deleting item" on a thrown error) and leaves `items` unchanged,
issuing no list request. -/
theorem handleDelete_characterization (s : HomeState) (id : Nat) (now : Nat) :
    (∀ l, handleDelete s id now (.ok (.ok l)) =
      ({ s with items := l }, [.deleteItem id, .listItems])) ∧
    handleDelete s id now (.ok .failure) =
      ({ s with tickerShows := s.tickerShows ++ [(now, "Error fetching items")] },
        [.deleteItem id, .listItems]) ∧
    handleDelete s id now .httpError =
      ({ s with tickerShows := s.tickerShows ++ [(now, "Failed to delete item")] },
        [.deleteItem id]) ∧
    handleDelete s id now .transportError =
      ({ s with tickerShows := s.tickerShows ++ [(now, "Error deleting item")] },
        [.deleteItem id]) := by
  exact ⟨fun l => rfl, rfl, rfl, rfl⟩

/-- Claim C3, counterexample: `Number("Infinity")` is the non-finite value
+Infinity, which is not NaN and is greater than zero, so the source's
`validatePositiveNumber` accepts "Infinity" while the spec's predicate
(finite and strictly positive) rejects it. -/
theorem validatePositiveNumber_accepts_Infinity :
    validatePositiveNumber "Infinity" = true ∧
    spec_isPositiveNumber "Infinity" = false := by
  decide

/-- Claim C3 as amended: `isPositiveNumber(s)` is true iff `s` parses as a
number (not NaN) whose value is strictly greater than zero — either the
non-finite value +Infinity, or a finite value above the positive-underflow
boundary; the empty string, non-numeric strings, NaN, zero and negative
values are all rejected, but finiteness is NOT checked. -/
theorem validatePositiveNumber_iff (s : String) :
    validatePositiveNumber s = true ↔
      jsStringToNumber s = JsNum.posInf ∨
      ∃ q : ℚ, jsStringToNumber s = JsNum.finite q ∧ underflowThreshold < q := by
  have hv : validatePositiveNumber s =
      (!(jsIsNaN (jsStringToNumber s)) && jsGtZero (jsStringToNumber s)) := rfl
  rw [hv]
  cases h : jsStringToNumber s with
  | nan => simp [jsIsNaN, jsGtZero]
  | posInf => simp [jsIsNaN, jsGtZero]
  | negInf => simp [jsIsNaN, jsGtZero]
  | finite q => simp [jsIsNaN, jsGtZero]

/-- The ticker-channel operations never touch the portfolio channel's show
history. -/
theorem tickerOps_portfolioShows (s : HomeState) (now : Nat) :
    (∀ o : AddOutcome, (handleTickerSubmit s now o).1.portfolioShows = s.portfolioShows) ∧
    (∀ id (o : DeleteOutcome), (handleDelete s id now o).1.portfolioShows = s.portfolioShows) ∧
    (∀ o : ListOutcome, (fetchItems s now o).1.portfolioShows = s.portfolioShows) := by
  refine ⟨fun o => ?_, fun id o => ?_, fun o => ?_⟩
  · unfold handleTickerSubmit
    split
    · rfl
    · cases o with
      | ok lo => cases lo <;> rfl
      | httpError => rfl
      | transportError => rfl
  · cases o with
    | ok lo => cases lo <;> rfl
    | httpError => rfl
    | transportError => rfl
  · cases o <;> rfl

/-- The portfolio-channel operations never touch the ticker channel's show
history. -/
theorem portfolioOps_tickerShows (s : HomeState) (now : Nat) :
    (∀ o : SetBudgetOutcome, (handlePortfolioSubmit s now o).1.tickerShows = s.tickerShows) ∧
    (∀ o : BudgetFetchOutcome, (fetchPortfolioValueHome s now o).1.tickerShows = s.tickerShows) := by
  refine ⟨fun o => ?_, fun o => ?_⟩
  · unfold handlePortfolioSubmit
    split
    · rfl
    · cases o <;> rfl
  · cases o <;> rfl

/-- Claim C4: the two notification channels are independent.  Every operation
that shows (or whose timers clear) on the ticker channel — ticker submission,
deletion, item fetching — leaves the portfolio channel's visible message and
pending expiries unchanged at every observation time, and symmetrically the
budget-side operations leave the ticker channel untouched. -/
theorem channel_independence (s : HomeState) (now t : Nat) :
    (∀ o : AddOutcome,
      visibleAt (handleTickerSubmit s now o).1.portfolioShows t = visibleAt s.portfolioShows t ∧
      pendingClears (handleTickerSubmit s now o).1.portfolioShows t =
        pendingClears s.portfolioShows t) ∧
    (∀ id (o : DeleteOutcome),
      visibleAt (handleDelete s id now o).1.portfolioShows t = visibleAt s.portfolioShows t ∧
      pendingClears (handleDelete s id now o).1.portfolioShows t =
        pendingClears s.portfolioShows t) ∧
    (∀ o : ListOutcome,
      visibleAt (fetchItems s now o).1.portfolioShows t = visibleAt s.portfolioShows t ∧
      pendingClears (fetchItems s now o).1.portfolioShows t =
        pendingClears s.portfolioShows t) ∧
    (∀ o : SetBudgetOutcome,
      visibleAt (handlePortfolioSubmit s now o).1.tickerShows t = visibleAt s.tickerShows t ∧
      pendingClears (handlePortfolioSubmit s now o).1.tickerShows t =
        pendingClears s.tickerShows t) ∧
    (∀ o : BudgetFetchOutcome,
      visibleAt (fetchPortfolioValueHome s now o).1.tickerShows t = visibleAt s.tickerShows t ∧
      pendingClears (fetchPortfolioValueHome s now o).1.tickerShows t =
        pendingClears s.tickerShows t) := by
  refine ⟨fun o => ?_, fun id o => ?_, fun o => ?_, fun o => ?_, fun o => ?_⟩
  · rw [(tickerOps_portfolioShows s now).1 o]; exact ⟨rfl, rfl⟩
  · rw [(tickerOps_portfolioShows s now).2.1 id o]; exact ⟨rfl, rfl⟩
  · rw [(tickerOps_portfolioShows s now).2.2 o]; exact ⟨rfl, rfl⟩
  · rw [(portfolioOps_tickerShows s now).1 o]; exact ⟨rfl, rfl⟩
  · rw [(portfolioOps_tickerShows s now).2 o]; exact ⟨rfl, rfl⟩

/-- Claim C5: with the budget absent or the items list empty,
`handleCalculate` issues no request, appends exactly the guard notification
to the error channel, and leaves items, budget and allocation result
unchanged. -/
theorem handleCalculate_guard (s : PortfolioState) (now : Nat) (o : ComputeOutcome)
    (h : s.portfolioValue = none ∨ s.items = []) :
    (handleCalculate s now o).2 = [] ∧
    (handleCalculate s now o).1.errorShows =
      s.errorShows ++ [(now, "Ensure portfolio value and stock tickers are set.")] ∧
    (handleCalculate s now o).1.items = s.items ∧
    (handleCalculate s now o).1.portfolioValue = s.portfolioValue ∧
    (handleCalculate s now o).1.allocationResults = s.allocationResults := by
  obtain ⟨pv, its, ar, es⟩ := s
  cases pv with
  | none => exact ⟨rfl, rfl, rfl, rfl, rfl⟩
  | some v =>
    cases its with
    | nil => exact ⟨rfl, rfl, rfl, rfl, rfl⟩
    | cons i is => rcases h with h | h <;> simp at h

/-- Witness for C5 at a concrete state with an absent budget. -/
theorem handleCalculate_guard_witness :
    (handleCalculate ⟨none, [], none, []⟩ 0 (.transportError "network down")).2 = [] ∧
    (handleCalculate ⟨none, [], none, []⟩ 0 (.transportError "network down")).1.errorShows =
      [(0, "Ensure portfolio value and stock tickers are set.")] := by
  have h := handleCalculate_guard ⟨none, [], none, []⟩ 0 (.transportError "network down")
    (Or.inl rfl)
  exact ⟨h.1, h.2.1⟩

/-- Claim C6: when the preconditions hold and the compute call succeeds, the
stored allocation result is replaced wholesale by exactly the structure the
service returned, nothing else changes, and the request carried the current
budget and tickers. -/
theorem handleCalculate_success (s : PortfolioState) (now : Nat) (v : JsNum)
    (i : Item) (is : List Item) (r : AllocationResult)
    (hv : s.portfolioValue = some v) (hi : s.items = i :: is) :
    (handleCalculate s now (.success r)).1.allocationResults = some r ∧
    (handleCalculate s now (.success r)).1.items = s.items ∧
    (handleCalculate s now (.success r)).1.portfolioValue = s.portfolioValue ∧
    (handleCalculate s now (.success r)).1.errorShows = s.errorShows ∧
    (handleCalculate s now (.success r)).2 = [⟨v, (i :: is).map Item.ticker⟩] := by
  obtain ⟨pv, its, ar, es⟩ := s
  change pv = some v at hv
  change its = i :: is at hi
  subst hv; subst hi
  exact ⟨rfl, rfl, rfl, rfl, rfl⟩

/-- Witness for C6 at the spec section 8 example: budget 10000, items AAPL
and MSFT, and the sample response stored exactly. -/
theorem handleCalculate_success_witness :
    (handleCalculate ⟨some (JsNum.finite 10000), [⟨1, "AAPL"⟩, ⟨2, "MSFT"⟩], none, []⟩ 0
        (.success exampleAllocation)).1.allocationResults = some exampleAllocation ∧
    (handleCalculate ⟨some (JsNum.finite 10000), [⟨1, "AAPL"⟩, ⟨2, "MSFT"⟩], none, []⟩ 0
        (.success exampleAllocation)).2 =
      [⟨JsNum.finite 10000, ["AAPL", "MSFT"]⟩] := by
  have h := handleCalculate_success
    ⟨some (JsNum.finite 10000), [⟨1, "AAPL"⟩, ⟨2, "MSFT"⟩], none, []⟩ 0
    (JsNum.finite 10000) ⟨1, "AAPL"⟩ [⟨2, "MSFT"⟩] exampleAllocation rfl rfl
  exact ⟨h.1, h.2.2.2.2⟩

/-- Claim C7: when the compute call fails, the shown notification carries the
server's error message when it is present (and non-empty, since `||` treats
the empty string as falsy), the fixed generic message when it is absent, or
the thrown error's message on a transport failure; in every failure case the
previously stored allocation result is left untouched. -/
theorem handleCalculate_failure (s : PortfolioState) (now : Nat) (v : JsNum)
    (i : Item) (is : List Item)
    (hv : s.portfolioValue = some v) (hi : s.items = i :: is) :
    (∀ m : String, m.isEmpty = false →
      (handleCalculate s now (.httpError (some m))).1.allocationResults = s.allocationResults ∧
      (handleCalculate s now (.httpError (some m))).1.errorShows =
        s.errorShows ++ [(now, m)]) ∧
    ((handleCalculate s now (.httpError none)).1.allocationResults = s.allocationResults ∧
      (handleCalculate s now (.httpError none)).1.errorShows =
        s.errorShows ++ [(now, "Failed to calculate portfolio")]) ∧
    (∀ m : String,
      (handleCalculate s now (.transportError m)).1.allocationResults = s.allocationResults ∧
      (handleCalculate s now (.transportError m)).1.errorShows =
        s.errorShows ++ [(now, m)]) := by
  obtain ⟨pv, its, ar, es⟩ := s
  change pv = some v at hv
  change its = i :: is at hi
  subst hv; subst hi
  refine ⟨fun m hm => ⟨rfl, ?_⟩, ⟨rfl, rfl⟩, fun m => ⟨rfl, rfl⟩⟩
  simp [handleCalculate, showError, jsOrString, hm]

/-- Witness for C7: a failed compute with the server message "Infeasible
budget" leaves the stale result in place and shows that message. -/
theorem handleCalculate_failure_witness :
    (handleCalculate ⟨some (JsNum.finite 100), [⟨1, "AAPL"⟩], some exampleAllocation, []⟩ 0
        (.httpError (some "Infeasible budget"))).1.allocationResults =
      some exampleAllocation ∧
    (handleCalculate ⟨some (JsNum.finite 100), [⟨1, "AAPL"⟩], some exampleAllocation, []⟩ 0
        (.httpError (some "Infeasible budget"))).1.errorShows =
      [(0, "Infeasible budget")] := by
  have h := (handleCalculate_failure
    ⟨some (JsNum.finite 100), [⟨1, "AAPL"⟩], some exampleAllocation, []⟩ 0
    (JsNum.finite 100) ⟨1, "AAPL"⟩ [] rfl rfl).1 "Infeasible budget" (by decide)
  exact ⟨h.1, h.2⟩

/-- Claim C8: when the raw input fails `validateStockTicker`, ticker
submission issues no request at all and only appends the fixed validation
message to the ticker channel. -/
theorem handleTickerSubmit_invalid (s : HomeState) (now : Nat) (o : AddOutcome)
    (h : validateStockTicker s.tickerInput = false) :
    (handleTickerSubmit s now o).2 = [] ∧
    (handleTickerSubmit s now o).1 =
      { s with tickerShows := s.tickerShows ++
          [(now, "Must put in a valid stock ticker (1-5 uppercase letters)")] } := by
  simp [handleTickerSubmit, h]

/-- Witness for C8 at the invalid input "abc" (lowercase). -/
theorem handleTickerSubmit_invalid_witness :
    (handleTickerSubmit ⟨[], "abc", "", none, [], []⟩ 0 .httpError).2 = [] ∧
    (handleTickerSubmit ⟨[], "abc", "", none, [], []⟩ 0 .httpError).1.tickerShows =
      [(0, "Must put in a valid stock ticker (1-5 uppercase letters)")] := by
  have h := handleTickerSubmit_invalid ⟨[], "abc", "", none, [], []⟩ 0 .httpError (by decide)
  exact ⟨h.1, congrArg HomeState.tickerShows h.2⟩

/-- Claim C9: for an input accepted by `validatePositiveNumber`, a successful
budget submission stores the NUMERIC parse of the raw string as the displayed
budget, clears the input field, and issues only the POST (no re-fetch of the
budget resource); both notification channels are untouched. -/
theorem handlePortfolioSubmit_success (s : HomeState) (now : Nat)
    (h : validatePositiveNumber s.portfolioValue = true) :
    (handlePortfolioSubmit s now .ok).1.displayedPortfolioValue =
      some (jsStringToNumber s.portfolioValue) ∧
    (handlePortfolioSubmit s now .ok).1.portfolioValue = "" ∧
    (handlePortfolioSubmit s now .ok).2 =
      [.setPortfolio (jsStringToNumber s.portfolioValue)] ∧
    HomeRequest.getPortfolio ∉ (handlePortfolioSubmit s now .ok).2 ∧
    (handlePortfolioSubmit s now .ok).1.items = s.items ∧
    (handlePortfolioSubmit s now .ok).1.portfolioShows = s.portfolioShows ∧
    (handlePortfolioSubmit s now .ok).1.tickerShows = s.tickerShows := by
  simp [handlePortfolioSubmit, h]

/-- Witness for C9 at the spec's round-trip example: submitting "500" leaves
the budget equal to the NUMBER 500. -/
theorem handlePortfolioSubmit_success_witness :
    (handlePortfolioSubmit ⟨[], "", "500", none, [], []⟩ 0 .ok).1.displayedPortfolioValue =
      some (JsNum.finite 500) ∧
    (handlePortfolioSubmit ⟨[], "", "500", none, [], []⟩ 0 .ok).1.portfolioValue = "" ∧
    (handlePortfolioSubmit ⟨[], "", "500", none, [], []⟩ 0 .ok).2 =
      [.setPortfolio (JsNum.finite 500)] := by
  have h := handlePortfolioSubmit_success ⟨[], "", "500", none, [], []⟩ 0 (by decide)
  exact ⟨h.1.trans (by decide), h.2.1, h.2.2.1.trans (by decide)⟩

/-- Claim C10: the precondition of `handleCalculate` only tests
`portfolioValue === null`, so any non-null fetched budget — zero and negative
values included — passes the check and is sent verbatim as the budget of the
compute request; the client enforces no positivity on values obtained from
GET /portfolio. -/
theorem fetched_budget_unchecked (s : PortfolioState) (t now : Nat) (v : JsNum)
    (o : ComputeOutcome) (h : s.items ≠ []) :
    (handleCalculate (fetchPortfolioValue s t (.ok (some v))) now o).2 =
      [⟨v, s.items.map Item.ticker⟩] := by
  obtain ⟨pv, its, ar, es⟩ := s
  cases its with
  | nil => exact absurd rfl h
  | cons i is => cases o <;> rfl

/-- Witness for C10 at the fetched budget 0, which the claim highlights: the
guard passes and 0 is sent to the compute call. -/
theorem fetched_budget_unchecked_witness :
    (handleCalculate
        (fetchPortfolioValue ⟨none, [⟨1, "AAPL"⟩], none, []⟩ 5 (.ok (some (JsNum.finite 0)))) 10
        (.httpError none)).2 = [⟨JsNum.finite 0, ["AAPL"]⟩] :=
  fetched_budget_unchecked ⟨none, [⟨1, "AAPL"⟩], none, []⟩ 5 10 (JsNum.finite 0)
    (.httpError none) (by decide)
